import Mathlib

/-!
Verification of the card-presentation engine of the vegan-cards repository.

The engine logic lives, near-identically, in
`src/components/CardCollection.jsx`, `src/components/slideshow/CardSlideshow.jsx`
and `src/Finitude.js`.  We embed `CardCollection.jsx` (the primary source named
by the claims; the other two copies are byte-for-byte identical in the
relevant handlers).

Modelling notes:
* React state variables become fields of `EngineState`; the `cards` prop is
  reduced to its length `n : Nat` (the engine only reads `cards.length` and
  `cards[currentCardIndex]`).
* `setTimeout` handles are modelled by natural-number ids: `pendingFlip` is
  the actually-scheduled flip-revert timeout (id plus the value of
  `wasAutoPlayingBeforeFlip` captured by the callback closure at creation
  time — JavaScript closures read the render-scope constant, not the later
  state), `flipTimer` is the id stored in the `flipTimer` state variable,
  and `nextHandle` is a fresh-id counter.  `clearTimeout` removes the
  scheduled timeout when the handles agree.
* The `useEffect` at CardCollection.jsx:108-121 is modelled by `effectStep`:
  it re-runs (previous cleanup, then body) exactly when one of its reactive
  dependencies changed; the identity of `startAutoPlay` changes exactly when one
  of `tickInterval, cards.length, isFlipped, flipTimer,
  wasAutoPlayingBeforeFlip` changes, so with `n` and the tick interval fixed
  the dependency tuple is `deps` below.  `autoplayArmed` records whether the
  advance/progress intervals are installed.
* Each public operation is one event-handler invocation followed by the
  React commit (all `setX` calls batched) and the conditional effect re-run.
-/

/-- The engine state: the `useState` variables of CardCollection.jsx:21-28
plus explicit timer bookkeeping (`pendingFlip`, `nextHandle` for the
flip-revert `setTimeout`, `autoplayArmed` for the two `setInterval`s owned
by the effect). -/
structure EngineState where
  currentIndex : Nat
  isAutoPlaying : Bool
  progress : Nat
  isFlipped : Bool
  touchStart : Option Int
  touchEnd : Option Int
  flipTimer : Option Nat
  wasAutoPlayingBeforeFlip : Bool
  pendingFlip : Option (Nat × Bool)
  nextHandle : Nat
  autoplayArmed : Bool
  deriving Repr, DecidableEq

/-- `clearTimeout(handle)` on the scheduled flip-revert timeout: removes it
when the handle matches; `clearTimeout(null)` is a no-op. -/
def clearOpt (p : Option (Nat × Bool)) (h : Option Nat) : Option (Nat × Bool) :=
  match h with
  | none => p
  | some hh =>
    match p with
    | none => none
    | some q => if q.1 = hh then none else some q

/-- The reactive dependencies of the autoplay `useEffect`
(CardCollection.jsx:121) that can change at fixed `cards.length` and
`tickInterval`: `isAutoPlaying`, `currentCardIndex`, `isFlipped`,
`flipTimer`, `wasAutoPlayingBeforeFlip` (the last three also drive the
identity of `startAutoPlay` through `nextCard`). -/
def deps (s : EngineState) : Bool × Nat × Bool × Option Nat × Bool :=
  (s.isAutoPlaying, s.currentIndex, s.isFlipped, s.flipTimer, s.wasAutoPlayingBeforeFlip)

/-- Cleanup of the previous effect run (CardCollection.jsx:115-120):
`stopAutoPlay()` (clear both intervals, `setProgress(0)`) and
`clearTimeout(flipTimer)` with the `flipTimer` of the previous render. -/
def cleanupRun (old new : EngineState) : EngineState :=
  { new with autoplayArmed := false, progress := 0,
             pendingFlip := clearOpt new.pendingFlip old.flipTimer }

/-- Body of the autoplay effect (CardCollection.jsx:109-113):
`if (isAutoPlaying && cards.length > 0 && !isFlipped) startAutoPlay() else
stopAutoPlay()`; `startAutoPlay` clears both intervals, resets progress and
re-arms them (jsx:77-98), `stopAutoPlay` clears them and resets progress
(jsx:101-105). -/
def effectBody (n : Nat) (s : EngineState) : EngineState :=
  if s.isAutoPlaying = true ∧ 0 < n ∧ s.isFlipped = false then
    { s with autoplayArmed := true, progress := 0 }
  else
    { s with autoplayArmed := false, progress := 0 }

/-- A full effect re-run: previous cleanup, then the body. -/
def effectRun (n : Nat) (old new : EngineState) : EngineState :=
  effectBody n (cleanupRun old new)

/-- React commit after a handler: the effect re-runs iff one of its
dependencies changed. -/
def effectStep (n : Nat) (old new : EngineState) : EngineState :=
  if deps old = deps new then new else effectRun n old new

/-- The `if (isFlipped) { ... }` prologue of `nextCard`/`prevCard`
(CardCollection.jsx:39-48 and 59-68): clear the flip-revert timeout, unflip,
and resume autoplay iff it was playing before the flip. -/
def unflipForNav (s : EngineState) : EngineState :=
  { s with pendingFlip := clearOpt s.pendingFlip s.flipTimer,
           isFlipped := false,
           flipTimer := none,
           isAutoPlaying := if s.wasAutoPlayingBeforeFlip then true else s.isAutoPlaying,
           wasAutoPlayingBeforeFlip :=
             if s.wasAutoPlayingBeforeFlip then false else s.wasAutoPlayingBeforeFlip }

/-- `setCurrentCardIndex(prev => (prev + 1) % cards.length); setProgress(0)`
guarded by `cards.length > 0` (CardCollection.jsx:50-53). -/
def navAdvance (n : Nat) (s : EngineState) : EngineState :=
  if 0 < n then
    { s with currentIndex := (s.currentIndex + 1) % n, progress := 0 }
  else s

/-- `setCurrentCardIndex(prev => (prev - 1 + cards.length) % cards.length)`
guarded by `cards.length > 0` (CardCollection.jsx:70-73); on the in-range
naturals used here the JavaScript value equals `(prev + n - 1) % n`. -/
def navRetreat (n : Nat) (s : EngineState) : EngineState :=
  if 0 < n then
    { s with currentIndex := (s.currentIndex + n - 1) % n, progress := 0 }
  else s

/-- The `nextCard` handler (CardCollection.jsx:37-54). -/
def nextHandler (n : Nat) (s : EngineState) : EngineState :=
  navAdvance n (if s.isFlipped then unflipForNav s else s)

/-- The `prevCard` handler (CardCollection.jsx:57-74). -/
def prevHandler (n : Nat) (s : EngineState) : EngineState :=
  navRetreat n (if s.isFlipped then unflipForNav s else s)

/-- The `handleCardClick` handler (CardCollection.jsx:124-162).  In the
flip branch the `setTimeout` callback closes over the render-scope constant
`wasAutoPlayingBeforeFlip`, i.e. the value BEFORE
`setWasAutoPlayingBeforeFlip(isAutoPlaying)` commits — that stale value is
what we store as the captured component of `pendingFlip`. -/
def clickHandler (s : EngineState) : EngineState :=
  if s.isFlipped then
    { s with pendingFlip := clearOpt s.pendingFlip s.flipTimer,
             isFlipped := false,
             flipTimer := none,
             isAutoPlaying := if s.wasAutoPlayingBeforeFlip then true else s.isAutoPlaying,
             wasAutoPlayingBeforeFlip := false }
  else
    { s with wasAutoPlayingBeforeFlip := s.isAutoPlaying,
             isAutoPlaying := if s.isAutoPlaying then false else s.isAutoPlaying,
             isFlipped := true,
             pendingFlip := some (s.nextHandle, s.wasAutoPlayingBeforeFlip),
             flipTimer := some s.nextHandle,
             nextHandle := s.nextHandle + 1 }

/-- The body of the flip-revert `setTimeout` callback
(CardCollection.jsx:149-158), with `c` the closure-captured value of
`wasAutoPlayingBeforeFlip`; the timeout is no longer scheduled once it has
fired. -/
def fireHandler (c : Bool) (s : EngineState) : EngineState :=
  { s with isFlipped := false,
           flipTimer := none,
           isAutoPlaying := if c then true else s.isAutoPlaying,
           wasAutoPlayingBeforeFlip := false,
           pendingFlip := none }

/-- `handlePlayPauseClick` (CardCollection.jsx:165-167). -/
def playHandler (s : EngineState) : EngineState :=
  { s with isAutoPlaying := !s.isAutoPlaying }

/-- `handleTouchStart` (CardCollection.jsx:170-173). -/
def touchStartHandler (x : Int) (s : EngineState) : EngineState :=
  { s with touchEnd := none, touchStart := some x }

/-- `handleTouchMove` (CardCollection.jsx:175-177). -/
def touchMoveHandler (x : Int) (s : EngineState) : EngineState :=
  { s with touchEnd := some x }

/-- `handleTouchEnd` (CardCollection.jsx:179-191).  The guard
`if (!touchStart || !touchEnd) return;` treats `null` AND the number `0`
as missing (JavaScript falsiness). -/
def touchEndHandler (n : Nat) (s : EngineState) : EngineState :=
  match s.touchStart, s.touchEnd with
  | some a, some b =>
    if a = 0 ∨ b = 0 then s
    else if a - b > 50 then nextHandler n s
    else if a - b < -50 then prevHandler n s
    else s
  | _, _ => s

/-- Public operation: next-card button / autoplay advance target. -/
def nextOp (n : Nat) (s : EngineState) : EngineState :=
  effectStep n s (nextHandler n s)

/-- Public operation: previous-card button. -/
def prevOp (n : Nat) (s : EngineState) : EngineState :=
  effectStep n s (prevHandler n s)

/-- Public operation: card tap (toggleFlip). -/
def clickOp (n : Nat) (s : EngineState) : EngineState :=
  effectStep n s (clickHandler s)

/-- Public operation: play/pause button (togglePlay). -/
def playOp (n : Nat) (s : EngineState) : EngineState :=
  effectStep n s (playHandler s)

/-- Public operation: touch-start event with client X coordinate `x`. -/
def touchStartOp (n : Nat) (x : Int) (s : EngineState) : EngineState :=
  effectStep n s (touchStartHandler x s)

/-- Public operation: touch-move event with client X coordinate `x`. -/
def touchMoveOp (n : Nat) (x : Int) (s : EngineState) : EngineState :=
  effectStep n s (touchMoveHandler x s)

/-- Public operation: touch-end event. -/
def touchEndOp (n : Nat) (s : EngineState) : EngineState :=
  effectStep n s (touchEndHandler n s)

/-- Timer event: the flip-revert timeout fires, if (and only if) it is
still scheduled. -/
def flipFireOp (n : Nat) (s : EngineState) : EngineState :=
  match s.pendingFlip with
  | some q => effectStep n s (fireHandler q.2 s)
  | none => s

/-- Timer event: the advance interval fires (calls `nextCard`,
CardCollection.jsx:95-97); only possible while the intervals are armed. -/
def advTickOp (n : Nat) (s : EngineState) : EngineState :=
  if s.autoplayArmed then nextOp n s else s

/-- Timer event: the progress interval fires
(CardCollection.jsx:85-92): `setProgress(prev => prev >= 100 ? 0 : prev + 1)`;
only possible while the intervals are armed. -/
def progTickOp (n : Nat) (s : EngineState) : EngineState :=
  if s.autoplayArmed then
    effectStep n s { s with progress := if s.progress ≥ 100 then 0 else s.progress + 1 }
  else s

/-- The `cards` prop is replaced by a sequence of a different length: no
state variable changes, but `cards.length` is an effect dependency, so the
effect re-runs (cleanup with the current `flipTimer`, then the body against
the new length).  A same-length replacement changes no dependency and
re-runs nothing. -/
def replaceOp (nOld nNew : Nat) (s : EngineState) : EngineState :=
  if nOld = nNew then s else effectRun nNew s s

/-- The freshly-mounted state (CardCollection.jsx:21-31). -/
def initBase (autoplay : Bool) : EngineState :=
  ⟨0, autoplay, 0, false, none, none, none, false, none, 0, false⟩

/-- Initial state after mount: the effect runs once unconditionally. -/
def initState (n : Nat) (autoplay : Bool) : EngineState :=
  effectRun n (initBase autoplay) (initBase autoplay)

/-- The current item, by position: `cards[currentCardIndex] || null`
(CardCollection.jsx:34) is `null` exactly when the index is out of range. -/
def currentItem (n : Nat) (s : EngineState) : Option Nat :=
  if s.currentIndex < n then some s.currentIndex else none

/-- The external events that can reach the engine. -/
inductive Ev where
  | next : Ev
  | prev : Ev
  | cardClick : Ev
  | playPause : Ev
  | tStart : Int → Ev
  | tMove : Int → Ev
  | tEnd : Ev
  | flipRevert : Ev
  | advanceTick : Ev
  | progressTick : Ev
  deriving Repr, DecidableEq

/-- Apply one event. -/
def applyEv (n : Nat) (e : Ev) (s : EngineState) : EngineState :=
  match e with
  | Ev.next => nextOp n s
  | Ev.prev => prevOp n s
  | Ev.cardClick => clickOp n s
  | Ev.playPause => playOp n s
  | Ev.tStart x => touchStartOp n x s
  | Ev.tMove x => touchMoveOp n x s
  | Ev.tEnd => touchEndOp n s
  | Ev.flipRevert => flipFireOp n s
  | Ev.advanceTick => advTickOp n s
  | Ev.progressTick => progTickOp n s

/-- Apply a sequence of events. -/
def applyEvents (n : Nat) (evs : List Ev) (s : EngineState) : EngineState :=
  evs.foldl (fun t e => applyEv n e t) s

/-! ### Field-preservation lemmas for the effect machinery -/

lemma effectRun_progress (n : Nat) (o s : EngineState) : (effectRun n o s).progress = 0 := by
  unfold effectRun effectBody cleanupRun
  split <;> rfl

lemma effectRun_currentIndex (n : Nat) (o s : EngineState) :
    (effectRun n o s).currentIndex = s.currentIndex := by
  unfold effectRun effectBody cleanupRun
  split <;> rfl

lemma effectRun_isAutoPlaying (n : Nat) (o s : EngineState) :
    (effectRun n o s).isAutoPlaying = s.isAutoPlaying := by
  unfold effectRun effectBody cleanupRun
  split <;> rfl

lemma effectRun_isFlipped (n : Nat) (o s : EngineState) :
    (effectRun n o s).isFlipped = s.isFlipped := by
  unfold effectRun effectBody cleanupRun
  split <;> rfl

lemma effectRun_wasAPBF (n : Nat) (o s : EngineState) :
    (effectRun n o s).wasAutoPlayingBeforeFlip = s.wasAutoPlayingBeforeFlip := by
  unfold effectRun effectBody cleanupRun
  split <;> rfl

lemma effectRun_pendingFlip (n : Nat) (o s : EngineState) :
    (effectRun n o s).pendingFlip = clearOpt s.pendingFlip o.flipTimer := by
  unfold effectRun effectBody cleanupRun
  split <;> rfl

lemma effectRun_touchStart (n : Nat) (o s : EngineState) :
    (effectRun n o s).touchStart = s.touchStart := by
  unfold effectRun effectBody cleanupRun
  split <;> rfl

lemma effectRun_touchEnd (n : Nat) (o s : EngineState) :
    (effectRun n o s).touchEnd = s.touchEnd := by
  unfold effectRun effectBody cleanupRun
  split <;> rfl

lemma effectRun_armed_iff (n : Nat) (o s : EngineState) :
    ((effectRun n o s).autoplayArmed = true ↔
      (s.isAutoPlaying = true ∧ 0 < n ∧ s.isFlipped = false)) := by
  unfold effectRun effectBody cleanupRun
  split
  case isTrue h => simpa using h
  case isFalse h => simpa using h

lemma effectStep_eq_of_deps (n : Nat) (s s₂ : EngineState) (h : deps s = deps s₂) :
    effectStep n s s₂ = s₂ := by
  unfold effectStep
  exact if_pos h

lemma effectStep_eq_run (n : Nat) (s s₂ : EngineState) (h : deps s ≠ deps s₂) :
    effectStep n s s₂ = effectRun n s s₂ := by
  unfold effectStep
  exact if_neg h

lemma effectStep_currentIndex (n : Nat) (s s₂ : EngineState) :
    (effectStep n s s₂).currentIndex = s₂.currentIndex := by
  unfold effectStep
  split
  · rfl
  · exact effectRun_currentIndex n s s₂

lemma effectStep_touchStart (n : Nat) (s s₂ : EngineState) :
    (effectStep n s s₂).touchStart = s₂.touchStart := by
  unfold effectStep
  split
  · rfl
  · exact effectRun_touchStart n s s₂

lemma effectStep_touchEnd (n : Nat) (s s₂ : EngineState) :
    (effectStep n s s₂).touchEnd = s₂.touchEnd := by
  unfold effectStep
  split
  · rfl
  · exact effectRun_touchEnd n s s₂

/-! ### Field lemmas for the handlers -/

lemma unflipForNav_currentIndex (s : EngineState) :
    (unflipForNav s).currentIndex = s.currentIndex := rfl

lemma nextHandler_currentIndex (n : Nat) (s : EngineState) (hn : 0 < n) :
    (nextHandler n s).currentIndex = (s.currentIndex + 1) % n := by
  unfold nextHandler navAdvance
  rw [if_pos hn]
  split <;> rfl

lemma prevHandler_currentIndex (n : Nat) (s : EngineState) (hn : 0 < n) :
    (prevHandler n s).currentIndex = (s.currentIndex + n - 1) % n := by
  unfold prevHandler navRetreat
  rw [if_pos hn]
  split <;> rfl

lemma nextHandler_autoplayArmed (n : Nat) (s : EngineState) :
    (nextHandler n s).autoplayArmed = s.autoplayArmed := by
  unfold nextHandler navAdvance
  split <;> split <;> rfl

lemma prevHandler_autoplayArmed (n : Nat) (s : EngineState) :
    (prevHandler n s).autoplayArmed = s.autoplayArmed := by
  unfold prevHandler navRetreat
  split <;> split <;> rfl

lemma nextHandler_progress (n : Nat) (s : EngineState) :
    (nextHandler n s).progress = s.progress ∨ (nextHandler n s).progress = 0 := by
  unfold nextHandler navAdvance
  split
  · right; rfl
  · split
    · left; rfl
    · left; rfl

lemma prevHandler_progress (n : Nat) (s : EngineState) :
    (prevHandler n s).progress = s.progress ∨ (prevHandler n s).progress = 0 := by
  unfold prevHandler navRetreat
  split
  · right; rfl
  · split
    · left; rfl
    · left; rfl

lemma clickHandler_autoplayArmed (s : EngineState) :
    (clickHandler s).autoplayArmed = s.autoplayArmed := by
  unfold clickHandler
  split <;> rfl

lemma clickHandler_progress (s : EngineState) :
    (clickHandler s).progress = s.progress := by
  unfold clickHandler
  split <;> rfl

lemma clickHandler_currentIndex (s : EngineState) :
    (clickHandler s).currentIndex = s.currentIndex := by
  unfold clickHandler
  split <;> rfl

lemma touchEndHandler_autoplayArmed (n : Nat) (s : EngineState) :
    (touchEndHandler n s).autoplayArmed = s.autoplayArmed := by
  unfold touchEndHandler
  split
  · split
    · rfl
    · split
      · exact nextHandler_autoplayArmed n s
      · split
        · exact prevHandler_autoplayArmed n s
        · rfl
  · rfl

lemma touchEndHandler_progress (n : Nat) (s : EngineState) :
    (touchEndHandler n s).progress = s.progress ∨ (touchEndHandler n s).progress = 0 := by
  unfold touchEndHandler
  split
  · split
    · left; rfl
    · split
      · exact nextHandler_progress n s
      · split
        · exact prevHandler_progress n s
        · left; rfl
  · left; rfl

lemma touchEndHandler_currentIndex (n : Nat) (s : EngineState) (hn : 0 < n)
    (h : s.currentIndex < n) : (touchEndHandler n s).currentIndex < n := by
  unfold touchEndHandler
  split
  · split
    · exact h
    · split
      · rw [nextHandler_currentIndex n s hn]; exact Nat.mod_lt _ hn
      · split
        · rw [prevHandler_currentIndex n s hn]; exact Nat.mod_lt _ hn
        · exact h
  · exact h

lemma touchEndHandler_touchStart (n : Nat) (s : EngineState) :
    (touchEndHandler n s).touchStart = s.touchStart := by
  unfold touchEndHandler nextHandler prevHandler navAdvance navRetreat
  split
  · split
    · rfl
    · split
      · split <;> split <;> rfl
      · split
        · split <;> split <;> rfl
        · rfl
  · rfl

lemma touchEndHandler_touchEnd (n : Nat) (s : EngineState) :
    (touchEndHandler n s).touchEnd = s.touchEnd := by
  unfold touchEndHandler nextHandler prevHandler navAdvance navRetreat
  split
  · split
    · rfl
    · split
      · split <;> split <;> rfl
      · split
        · split <;> split <;> rfl
        · rfl
  · rfl

/-! ### The timer-consistency invariant (drives claims C4 and C10) -/

/-- Quiescent-state invariant: the advance/progress intervals are armed
exactly in the `PLAYING` state with a nonempty list, and whenever they are
not armed the progress value has been reset to 0. -/
def EngineInv (n : Nat) (s : EngineState) : Prop :=
  (s.autoplayArmed = true ↔ (s.isAutoPlaying = true ∧ 0 < n ∧ s.isFlipped = false))
  ∧ (s.autoplayArmed = false → s.progress = 0)

lemma effectRun_inv (n : Nat) (o s : EngineState) : EngineInv n (effectRun n o s) := by
  constructor
  · rw [effectRun_armed_iff, effectRun_isAutoPlaying, effectRun_isFlipped]
  · intro _
    exact effectRun_progress n o s

lemma effectStep_inv (n : Nat) (s s₂ : EngineState) (hInv : EngineInv n s)
    (hA : s₂.autoplayArmed = s.autoplayArmed)
    (hP : s₂.progress = s.progress ∨ s₂.progress = 0) :
    EngineInv n (effectStep n s s₂) := by
  unfold effectStep
  split
  case isTrue h =>
    simp only [deps, Prod.mk.injEq] at h
    obtain ⟨h1, _, h3, _, _⟩ := h
    constructor
    · rw [hA, ← h1, ← h3]
      exact hInv.1
    · intro h0
      rw [hA] at h0
      rcases hP with hp | hp
      · rw [hp]
        exact hInv.2 h0
      · exact hp
  case isFalse => exact effectRun_inv n s s₂

lemma inv_nextOp (n : Nat) (s : EngineState) (h : EngineInv n s) : EngineInv n (nextOp n s) :=
  effectStep_inv n s _ h (nextHandler_autoplayArmed n s) (nextHandler_progress n s)

lemma inv_prevOp (n : Nat) (s : EngineState) (h : EngineInv n s) : EngineInv n (prevOp n s) :=
  effectStep_inv n s _ h (prevHandler_autoplayArmed n s) (prevHandler_progress n s)

lemma inv_clickOp (n : Nat) (s : EngineState) (h : EngineInv n s) : EngineInv n (clickOp n s) :=
  effectStep_inv n s _ h (clickHandler_autoplayArmed s) (Or.inl (clickHandler_progress s))

lemma inv_playOp (n : Nat) (s : EngineState) (h : EngineInv n s) : EngineInv n (playOp n s) :=
  effectStep_inv n s _ h rfl (Or.inl rfl)

lemma inv_touchStartOp (n : Nat) (x : Int) (s : EngineState) (h : EngineInv n s) :
    EngineInv n (touchStartOp n x s) :=
  effectStep_inv n s _ h rfl (Or.inl rfl)

lemma inv_touchMoveOp (n : Nat) (x : Int) (s : EngineState) (h : EngineInv n s) :
    EngineInv n (touchMoveOp n x s) :=
  effectStep_inv n s _ h rfl (Or.inl rfl)

lemma inv_touchEndOp (n : Nat) (s : EngineState) (h : EngineInv n s) : EngineInv n (touchEndOp n s) :=
  effectStep_inv n s _ h (touchEndHandler_autoplayArmed n s) (touchEndHandler_progress n s)

lemma inv_flipFireOp (n : Nat) (s : EngineState) (h : EngineInv n s) : EngineInv n (flipFireOp n s) := by
  unfold flipFireOp
  split
  · exact effectStep_inv n s _ h rfl (Or.inl rfl)
  · exact h

lemma inv_advTickOp (n : Nat) (s : EngineState) (h : EngineInv n s) : EngineInv n (advTickOp n s) := by
  unfold advTickOp
  split
  · exact inv_nextOp n s h
  · exact h

lemma inv_progTickOp (n : Nat) (s : EngineState) (h : EngineInv n s) : EngineInv n (progTickOp n s) := by
  unfold progTickOp
  split
  case isTrue harm =>
    rw [effectStep_eq_of_deps n s
      { s with progress := if s.progress ≥ 100 then 0 else s.progress + 1 } rfl]
    constructor
    · exact h.1
    · intro h0
      exact absurd (h0.symm.trans harm) (by simp)
  case isFalse => exact h

lemma inv_applyEv (n : Nat) (e : Ev) (s : EngineState) (h : EngineInv n s) :
    EngineInv n (applyEv n e s) := by
  cases e with
  | next => exact inv_nextOp n s h
  | prev => exact inv_prevOp n s h
  | cardClick => exact inv_clickOp n s h
  | playPause => exact inv_playOp n s h
  | tStart x => exact inv_touchStartOp n x s h
  | tMove x => exact inv_touchMoveOp n x s h
  | tEnd => exact inv_touchEndOp n s h
  | flipRevert => exact inv_flipFireOp n s h
  | advanceTick => exact inv_advTickOp n s h
  | progressTick => exact inv_progTickOp n s h

lemma inv_applyEvents (n : Nat) (evs : List Ev) (s : EngineState) (h : EngineInv n s) :
    EngineInv n (applyEvents n evs s) := by
  induction evs generalizing s with
  | nil => exact h
  | cons e evs ih => exact ih _ (inv_applyEv n e s h)

lemma inv_initState (n : Nat) (b : Bool) : EngineInv n (initState n b) :=
  effectRun_inv n _ _

/-! ### Index-range preservation (drives claim C4) -/

lemma applyEv_currentIndex_lt (n : Nat) (e : Ev) (s : EngineState) (hn : 0 < n)
    (h : s.currentIndex < n) : (applyEv n e s).currentIndex < n := by
  cases e with
  | next =>
    rw [applyEv, nextOp, effectStep_currentIndex, nextHandler_currentIndex n s hn]
    exact Nat.mod_lt _ hn
  | prev =>
    rw [applyEv, prevOp, effectStep_currentIndex, prevHandler_currentIndex n s hn]
    exact Nat.mod_lt _ hn
  | cardClick =>
    rw [applyEv, clickOp, effectStep_currentIndex, clickHandler_currentIndex]
    exact h
  | playPause =>
    rw [applyEv, playOp, effectStep_currentIndex]
    exact h
  | tStart x =>
    rw [applyEv, touchStartOp, effectStep_currentIndex]
    exact h
  | tMove x =>
    rw [applyEv, touchMoveOp, effectStep_currentIndex]
    exact h
  | tEnd =>
    rw [applyEv, touchEndOp, effectStep_currentIndex]
    exact touchEndHandler_currentIndex n s hn h
  | flipRevert =>
    rw [applyEv, flipFireOp]
    split
    · rw [effectStep_currentIndex]
      exact h
    · exact h
  | advanceTick =>
    rw [applyEv, advTickOp]
    split
    · rw [nextOp, effectStep_currentIndex, nextHandler_currentIndex n s hn]
      exact Nat.mod_lt _ hn
    · exact h
  | progressTick =>
    rw [applyEv, progTickOp]
    split
    · rw [effectStep_currentIndex]
      exact h
    · exact h

lemma initState_currentIndex (n : Nat) (b : Bool) : (initState n b).currentIndex = 0 := by
  rw [initState, effectRun_currentIndex]
  rfl

/-! ### Index arithmetic of navigation -/

lemma nextOp_currentIndex (n : Nat) (s : EngineState) (hn : 0 < n) :
    (nextOp n s).currentIndex = (s.currentIndex + 1) % n := by
  rw [nextOp, effectStep_currentIndex, nextHandler_currentIndex n s hn]

lemma prevOp_currentIndex (n : Nat) (s : EngineState) (hn : 0 < n) :
    (prevOp n s).currentIndex = (s.currentIndex + n - 1) % n := by
  rw [prevOp, effectStep_currentIndex, prevHandler_currentIndex n s hn]

lemma nextOp_iterate_currentIndex (n k : Nat) (s : EngineState) (hn : 0 < n) :
    ((nextOp n)^[k + 1] s).currentIndex = (s.currentIndex + (k + 1)) % n := by
  induction k with
  | zero =>
    rw [Function.iterate_one]
    exact nextOp_currentIndex n s hn
  | succ m ih =>
    rw [Function.iterate_succ_apply', nextOp_currentIndex n _ hn, ih, Nat.mod_add_mod,
      Nat.add_assoc]

lemma prevOp_iterate_currentIndex (n k : Nat) (s : EngineState) (hn : 0 < n) :
    ((prevOp n)^[k + 1] s).currentIndex = (s.currentIndex + (k + 1) * (n - 1)) % n := by
  have hsub : ∀ m : Nat, m + n - 1 = m + (n - 1) := fun m => Nat.add_sub_assoc hn m
  induction k with
  | zero =>
    rw [Function.iterate_one, prevOp_currentIndex n s hn, hsub, Nat.one_mul]
  | succ m ih =>
    rw [Function.iterate_succ_apply', prevOp_currentIndex n _ hn, ih, hsub, Nat.mod_add_mod,
      Nat.add_assoc, ← Nat.succ_mul]

lemma nextHandler_progress_zero (n : Nat) (s : EngineState) (hn : 0 < n) :
    (nextHandler n s).progress = 0 := by
  unfold nextHandler navAdvance
  rw [if_pos hn]

lemma prevHandler_progress_zero (n : Nat) (s : EngineState) (hn : 0 < n) :
    (prevHandler n s).progress = 0 := by
  unfold prevHandler navRetreat
  rw [if_pos hn]

lemma applyEvents_currentIndex_lt (n : Nat) (evs : List Ev) (s : EngineState) (hn : 0 < n)
    (h : s.currentIndex < n) : (applyEvents n evs s).currentIndex < n := by
  induction evs generalizing s with
  | nil => exact h
  | cons e evs ih => exact ih _ (applyEv_currentIndex_lt n e s hn h)

/-! ### Claim theorems -/

/-- C1 (code_bug evaluation): starting in `PLAYING` at index 0 with three
items, `toggleFlip` does pause autoplay, flip the card and disarm the
advance timer; but when the flip-revert timeout then fires unpreempted, the
card unflips and the index is unchanged while `isPlaying` REMAINS `false` —
the callback closure captured the pre-flip `wasAutoPlayingBeforeFlip`
(always `false`), so autoplay is never resumed by the timed revert,
contradicting the claim (and the source comment) that play is
restored. -/
theorem c1_timed_revert_keeps_paused :
    (clickOp 3 (initState 3 true)).isAutoPlaying = false
    ∧ (clickOp 3 (initState 3 true)).isFlipped = true
    ∧ (clickOp 3 (initState 3 true)).autoplayArmed = false
    ∧ (flipFireOp 3 (clickOp 3 (initState 3 true))).isFlipped = false
    ∧ (flipFireOp 3 (clickOp 3 (initState 3 true))).currentIndex = 0
    ∧ (flipFireOp 3 (clickOp 3 (initState 3 true))).isAutoPlaying = false := by
  decide

/-- C3: wrap-around — for every item count `n > 0` and every in-range
starting index, `n` consecutive `navigate(next)` calls return
`currentIndex` to its starting value, and likewise `n` consecutive
`navigate(previous)` calls. -/
theorem c3_wraparound (n : Nat) (s : EngineState) (hn : 0 < n)
    (hi : s.currentIndex < n) :
    ((nextOp n)^[n] s).currentIndex = s.currentIndex
    ∧ ((prevOp n)^[n] s).currentIndex = s.currentIndex := by
  obtain ⟨m, rfl⟩ : ∃ m, n = m + 1 := ⟨n - 1, (Nat.succ_pred_eq_of_pos hn).symm⟩
  constructor
  · rw [nextOp_iterate_currentIndex (m + 1) m s hn, Nat.add_mod_right,
      Nat.mod_eq_of_lt hi]
  · rw [prevOp_iterate_currentIndex (m + 1) m s hn]
    have : m + 1 - 1 = m := rfl
    rw [this, Nat.add_mul_mod_self_left, Nat.mod_eq_of_lt hi]

/-- C3 witness: three items starting at the initial index. -/
theorem c3_wraparound_witness :
    0 < 3 ∧ (initState 3 true).currentIndex < 3
    ∧ (((nextOp 3)^[3] (initState 3 true)).currentIndex = (initState 3 true).currentIndex
      ∧ ((prevOp 3)^[3] (initState 3 true)).currentIndex = (initState 3 true).currentIndex) :=
  ⟨by decide, by decide, c3_wraparound 3 (initState 3 true) (by decide) (by decide)⟩

/-- C4: index range invariant — for every item count `n > 0`, starting from
the initial state and applying any sequence of engine events (including the
four public operations navigate next/previous, toggleFlip, togglePlay),
`currentIndex` stays in `[0, n)`. -/
theorem c4_index_in_range (n : Nat) (b : Bool) (evs : List Ev) (hn : 0 < n) :
    (applyEvents n evs (initState n b)).currentIndex < n := by
  apply applyEvents_currentIndex_lt n evs _ hn
  rw [initState_currentIndex]
  exact hn

/-- C4 witness: a concrete mixed event sequence on three items. -/
theorem c4_index_in_range_witness :
    0 < 3 ∧ (applyEvents 3 [Ev.next, Ev.cardClick, Ev.prev, Ev.playPause, Ev.prev]
      (initState 3 true)).currentIndex < 3 :=
  ⟨by decide, c4_index_in_range 3 true [Ev.next, Ev.cardClick, Ev.prev, Ev.playPause, Ev.prev]
    (by decide)⟩

/-- C5: progress reset on navigate — with a nonempty item list, every
navigate call (either direction, from any state, including the single-item
wrap-to-itself case) leaves `progress = 0` immediately afterwards. -/
theorem c5_progress_reset (n : Nat) (s : EngineState) (hn : 0 < n) :
    (nextOp n s).progress = 0 ∧ (prevOp n s).progress = 0 := by
  constructor
  · rw [nextOp]
    unfold effectStep
    split
    · exact nextHandler_progress_zero n s hn
    · exact effectRun_progress n s _
  · rw [prevOp]
    unfold effectStep
    split
    · exact prevHandler_progress_zero n s hn
    · exact effectRun_progress n s _

/-- C5 witness: the single-item case at nonzero prior progress — the index
wraps to itself and progress still resets. -/
theorem c5_progress_reset_witness :
    0 < 1
    ∧ ((nextOp 1 { initState 1 true with progress := 42 }).progress = 0
      ∧ (prevOp 1 { initState 1 true with progress := 42 }).progress = 0)
    ∧ (nextOp 1 { initState 1 true with progress := 42 }).currentIndex
        = ({ initState 1 true with progress := 42 } : EngineState).currentIndex :=
  ⟨by decide, c5_progress_reset 1 _ (by decide), by decide⟩

/-- C10: pausing also clears the progress bar — in every state reachable
from the initial state by engine events, being paused or flipped at a
quiescent point implies `progress = 0` (the timer-teardown path resets
progress unconditionally). -/
theorem c10_paused_progress_zero (n : Nat) (b : Bool) (evs : List Ev)
    (h : (applyEvents n evs (initState n b)).isAutoPlaying = false
      ∨ (applyEvents n evs (initState n b)).isFlipped = true) :
    (applyEvents n evs (initState n b)).progress = 0 := by
  have hInv := inv_applyEvents n evs (initState n b) (inv_initState n b)
  apply hInv.2
  cases harm : (applyEvents n evs (initState n b)).autoplayArmed
  · rfl
  · exfalso
    have hev := hInv.1.mp harm
    rcases h with h | h
    · rw [hev.1] at h
      cases h
    · rw [hev.2.2] at h
      cases h

/-- C10 witness: after toggling play off, the state is paused and progress
is zero. -/
theorem c10_paused_progress_zero_witness :
    (applyEvents 3 [Ev.playPause] (initState 3 true)).isAutoPlaying = false
    ∧ (applyEvents 3 [Ev.playPause] (initState 3 true)).progress = 0 :=
  ⟨by decide, c10_paused_progress_zero 3 true [Ev.playPause] (Or.inl (by decide))⟩

/-! ### Navigation on a flipped state (claim C2) -/

lemma navAdvance_isFlipped (n : Nat) (s : EngineState) :
    (navAdvance n s).isFlipped = s.isFlipped := by
  unfold navAdvance
  split <;> rfl

lemma navAdvance_isAutoPlaying (n : Nat) (s : EngineState) :
    (navAdvance n s).isAutoPlaying = s.isAutoPlaying := by
  unfold navAdvance
  split <;> rfl

lemma navAdvance_pendingFlip (n : Nat) (s : EngineState) :
    (navAdvance n s).pendingFlip = s.pendingFlip := by
  unfold navAdvance
  split <;> rfl

lemma navAdvance_wasAPBF (n : Nat) (s : EngineState) :
    (navAdvance n s).wasAutoPlayingBeforeFlip = s.wasAutoPlayingBeforeFlip := by
  unfold navAdvance
  split <;> rfl

lemma navAdvance_currentIndex (n : Nat) (s : EngineState) (hn : 0 < n) :
    (navAdvance n s).currentIndex = (s.currentIndex + 1) % n := by
  unfold navAdvance
  rw [if_pos hn]

lemma navRetreat_isFlipped (n : Nat) (s : EngineState) :
    (navRetreat n s).isFlipped = s.isFlipped := by
  unfold navRetreat
  split <;> rfl

lemma navRetreat_isAutoPlaying (n : Nat) (s : EngineState) :
    (navRetreat n s).isAutoPlaying = s.isAutoPlaying := by
  unfold navRetreat
  split <;> rfl

lemma navRetreat_pendingFlip (n : Nat) (s : EngineState) :
    (navRetreat n s).pendingFlip = s.pendingFlip := by
  unfold navRetreat
  split <;> rfl

lemma navRetreat_wasAPBF (n : Nat) (s : EngineState) :
    (navRetreat n s).wasAutoPlayingBeforeFlip = s.wasAutoPlayingBeforeFlip := by
  unfold navRetreat
  split <;> rfl

lemma navRetreat_currentIndex (n : Nat) (s : EngineState) (hn : 0 < n) :
    (navRetreat n s).currentIndex = (s.currentIndex + n - 1) % n := by
  unfold navRetreat
  rw [if_pos hn]

lemma nextOp_flipped_eq (n : Nat) (s : EngineState) (hf : s.isFlipped = true) :
    nextOp n s = effectRun n s (navAdvance n (unflipForNav s)) := by
  have hh : nextHandler n s = navAdvance n (unflipForNav s) := by
    rw [nextHandler, if_pos hf]
  rw [nextOp, hh]
  apply effectStep_eq_run
  intro heq
  simp only [deps, Prod.mk.injEq] at heq
  have h3 := heq.2.2.1
  rw [hf, navAdvance_isFlipped] at h3
  exact Bool.true_eq_false.mp (h3.trans rfl)

lemma prevOp_flipped_eq (n : Nat) (s : EngineState) (hf : s.isFlipped = true) :
    prevOp n s = effectRun n s (navRetreat n (unflipForNav s)) := by
  have hh : prevHandler n s = navRetreat n (unflipForNav s) := by
    rw [prevHandler, if_pos hf]
  rw [prevOp, hh]
  apply effectStep_eq_run
  intro heq
  simp only [deps, Prod.mk.injEq] at heq
  have h3 := heq.2.2.1
  rw [hf, navRetreat_isFlipped] at h3
  exact Bool.true_eq_false.mp (h3.trans rfl)

lemma unflipForNav_pendingFlip_none (s : EngineState) (h : Nat) (c : Bool)
    (hp : s.pendingFlip = some (h, c)) (ht : s.flipTimer = some h) :
    (unflipForNav s).pendingFlip = none := by
  show clearOpt s.pendingFlip s.flipTimer = none
  rw [hp, ht]
  simp [clearOpt]

lemma clearOpt_none (h : Option Nat) : clearOpt none h = none := by
  unfold clearOpt
  cases h <;> rfl

/-- C2: navigating while flipped resolves the flip immediately — from any
flipped state with its revert timeout scheduled and a nonempty list, either
navigation direction synchronously cancels the timeout, clears `isFlipped`,
performs the restore `isPlaying := true` exactly when
`wasAutoPlayingBeforeFlip` was set (otherwise `isPlaying` is untouched),
clears the pending flag, advances the index with wrap-around, and the
revert can no longer take effect at the original deadline. -/
theorem c2_navigate_resolves_flip (n : Nat) (s : EngineState) (h : Nat) (c : Bool)
    (hf : s.isFlipped = true) (hp : s.pendingFlip = some (h, c))
    (ht : s.flipTimer = some h) (hn : 0 < n) :
    ((nextOp n s).isFlipped = false
      ∧ (nextOp n s).pendingFlip = none
      ∧ (s.wasAutoPlayingBeforeFlip = true → (nextOp n s).isAutoPlaying = true)
      ∧ (s.wasAutoPlayingBeforeFlip = false → (nextOp n s).isAutoPlaying = s.isAutoPlaying)
      ∧ (nextOp n s).wasAutoPlayingBeforeFlip = false
      ∧ (nextOp n s).currentIndex = (s.currentIndex + 1) % n
      ∧ flipFireOp n (nextOp n s) = nextOp n s)
    ∧ ((prevOp n s).isFlipped = false
      ∧ (prevOp n s).pendingFlip = none
      ∧ (s.wasAutoPlayingBeforeFlip = true → (prevOp n s).isAutoPlaying = true)
      ∧ (s.wasAutoPlayingBeforeFlip = false → (prevOp n s).isAutoPlaying = s.isAutoPlaying)
      ∧ (prevOp n s).wasAutoPlayingBeforeFlip = false
      ∧ (prevOp n s).currentIndex = (s.currentIndex + n - 1) % n
      ∧ flipFireOp n (prevOp n s) = prevOp n s) := by
  have hun : (unflipForNav s).pendingFlip = none := unflipForNav_pendingFlip_none s h c hp ht
  constructor
  · have he := nextOp_flipped_eq n s hf
    have hpend : (nextOp n s).pendingFlip = none := by
      rw [he, effectRun_pendingFlip, navAdvance_pendingFlip, hun, clearOpt_none]
    refine ⟨?_, hpend, ?_, ?_, ?_, ?_, ?_⟩
    · rw [he, effectRun_isFlipped, navAdvance_isFlipped]
      rfl
    · intro hw
      rw [he, effectRun_isAutoPlaying, navAdvance_isAutoPlaying]
      show (if s.wasAutoPlayingBeforeFlip then true else s.isAutoPlaying) = true
      rw [hw]
      rfl
    · intro hw
      rw [he, effectRun_isAutoPlaying, navAdvance_isAutoPlaying]
      show (if s.wasAutoPlayingBeforeFlip then true else s.isAutoPlaying) = s.isAutoPlaying
      rw [hw]
      rfl
    · rw [he, effectRun_wasAPBF, navAdvance_wasAPBF]
      show (if s.wasAutoPlayingBeforeFlip then false else s.wasAutoPlayingBeforeFlip) = false
      cases hw : s.wasAutoPlayingBeforeFlip <;> rfl
    · rw [he, effectRun_currentIndex, navAdvance_currentIndex n _ hn]
      rfl
    · rw [flipFireOp, hpend]
  · have he := prevOp_flipped_eq n s hf
    have hpend : (prevOp n s).pendingFlip = none := by
      rw [he, effectRun_pendingFlip, navRetreat_pendingFlip, hun, clearOpt_none]
    refine ⟨?_, hpend, ?_, ?_, ?_, ?_, ?_⟩
    · rw [he, effectRun_isFlipped, navRetreat_isFlipped]
      rfl
    · intro hw
      rw [he, effectRun_isAutoPlaying, navRetreat_isAutoPlaying]
      show (if s.wasAutoPlayingBeforeFlip then true else s.isAutoPlaying) = true
      rw [hw]
      rfl
    · intro hw
      rw [he, effectRun_isAutoPlaying, navRetreat_isAutoPlaying]
      show (if s.wasAutoPlayingBeforeFlip then true else s.isAutoPlaying) = s.isAutoPlaying
      rw [hw]
      rfl
    · rw [he, effectRun_wasAPBF, navRetreat_wasAPBF]
      show (if s.wasAutoPlayingBeforeFlip then false else s.wasAutoPlayingBeforeFlip) = false
      cases hw : s.wasAutoPlayingBeforeFlip <;> rfl
    · rw [he, effectRun_currentIndex, navRetreat_currentIndex n _ hn]
      rfl
    · rw [flipFireOp, hpend]

/-- C2 witness: flip during autoplay on three items, then navigate next —
flip resolves and autoplay resumes. -/
theorem c2_navigate_resolves_flip_witness :
    (clickOp 3 (initState 3 true)).isFlipped = true
    ∧ (clickOp 3 (initState 3 true)).pendingFlip = some (0, false)
    ∧ (clickOp 3 (initState 3 true)).flipTimer = some 0
    ∧ 0 < 3
    ∧ (clickOp 3 (initState 3 true)).wasAutoPlayingBeforeFlip = true
    ∧ (nextOp 3 (clickOp 3 (initState 3 true))).isAutoPlaying = true :=
  ⟨by decide, by decide, by decide, by decide, by decide,
    (c2_navigate_resolves_flip 3 (clickOp 3 (initState 3 true)) 0 false (by decide) (by decide)
      (by decide) (by decide)).1.2.2.1 (by decide)⟩

/-! ### Empty sequence (claim C6) -/

lemma effectRun_armed_zero (o s : EngineState) : (effectRun 0 o s).autoplayArmed = false := by
  cases harm : (effectRun 0 o s).autoplayArmed
  · rfl
  · exact absurd ((effectRun_armed_iff 0 o s).mp harm).2.1 (Nat.lt_irrefl 0)

/-- C6 counterexample: with an empty list, `toggleFlip` flips the card and
arms a flip-revert timeout, and `togglePlay` changes `isPlaying` — so those
operations are neither state-preserving no-ops nor timer-free, contrary to
the claim. -/
theorem c6_counterexample :
    (clickOp 0 (initState 0 true)).isFlipped = true
    ∧ (clickOp 0 (initState 0 true)).pendingFlip = some (0, false)
    ∧ clickOp 0 (initState 0 true) ≠ initState 0 true
    ∧ (initState 0 true).isAutoPlaying = true
    ∧ (playOp 0 (initState 0 true)).isAutoPlaying = false := by
  decide

/-- C6 (amended): with an empty list the engine reports no current item and
never arms the autoplay/progress intervals; navigation in either direction
is a non-throwing no-op (when not flipped); `togglePlay` toggles the play
intent without arming anything; `toggleFlip` does flip and schedule a
revert timeout, but the component early-returns a placeholder with no card
or controls, so no handler is reachable from the UI. -/
theorem c6_empty_sequence (s : EngineState) (hf : s.isFlipped = false) :
    currentItem 0 s = none
    ∧ nextOp 0 s = s
    ∧ prevOp 0 s = s
    ∧ (playOp 0 s).autoplayArmed = false
    ∧ (playOp 0 s).currentIndex = s.currentIndex
    ∧ currentItem 0 (playOp 0 s) = none
    ∧ (clickOp 0 s).autoplayArmed = false := by
  have hitem : ∀ t : EngineState, currentItem 0 t = none := by
    intro t
    unfold currentItem
    rw [if_neg (Nat.not_lt_zero _)]
  have hplayne : deps s ≠ deps (playHandler s) := by
    intro heq
    have h1 : s.isAutoPlaying = !s.isAutoPlaying := (Prod.mk.injEq _ _ _ _ ▸ heq).1
    cases hb : s.isAutoPlaying <;> rw [hb] at h1 <;> cases h1
  refine ⟨hitem s, ?_, ?_, ?_, ?_, hitem _, ?_⟩
  · have hh : nextHandler 0 s = s := by
      unfold nextHandler navAdvance
      rw [if_neg (Nat.lt_irrefl 0), hf, if_neg Bool.false_ne_true]
    rw [nextOp, hh, effectStep_eq_of_deps 0 s s rfl]
  · have hh : prevHandler 0 s = s := by
      unfold prevHandler navRetreat
      rw [if_neg (Nat.lt_irrefl 0), hf, if_neg Bool.false_ne_true]
    rw [prevOp, hh, effectStep_eq_of_deps 0 s s rfl]
  · rw [playOp, effectStep_eq_run 0 s _ hplayne]
    exact effectRun_armed_zero s _
  · rw [playOp, effectStep_currentIndex]
    rfl
  · have hclickne : deps s ≠ deps (clickHandler s) := by
      intro heq
      have h3 : s.isFlipped = (clickHandler s).isFlipped := by
        simp only [deps, Prod.mk.injEq] at heq
        exact heq.2.2.1
      have hcf : (clickHandler s).isFlipped = true := by
        unfold clickHandler
        rw [hf]
        rfl
      rw [hf, hcf] at h3
      cases h3
    rw [clickOp, effectStep_eq_run 0 s _ hclickne]
    exact effectRun_armed_zero s _

/-- C6 amended witness: the freshly-mounted empty-list state. -/
theorem c6_empty_sequence_witness :
    (initState 0 true).isFlipped = false
    ∧ (currentItem 0 (initState 0 true) = none ∧ nextOp 0 (initState 0 true) = initState 0 true) :=
  ⟨by decide,
    ⟨(c6_empty_sequence (initState 0 true) (by decide)).1,
      (c6_empty_sequence (initState 0 true) (by decide)).2.1⟩⟩

/-! ### Gesture recognition (claims C7, C8) -/

/-- C7 counterexample: a 51-pixel drag ending at client X = 0 produces NO
navigation — the guard treats the coordinate 0 as missing (JavaScript
falsiness), so the state (in particular `currentIndex`) is left unchanged
even though `distance = 51 > 50`. -/
theorem c7_counterexample :
    touchEndOp 3 { initState 3 true with touchStart := some 51, touchEnd := some 0 }
      = { initState 3 true with touchStart := some 51, touchEnd := some 0 }
    ∧ (touchEndOp 3 { initState 3 true with touchStart := some 51, touchEnd := some 0 }).currentIndex
      = 0
    ∧ (nextOp 3 { initState 3 true with touchStart := some 51, touchEnd := some 0 }).currentIndex
      = 1 := by
  decide

/-- C7 (amended): on touch-end with both recorded coordinates present and
non-zero, `distance > 50` produces exactly one `navigate(next)`,
`distance < -50` exactly one `navigate(previous)`, and any distance in
`[-50, 50]` (so 49 and exactly 50) produces none; a recorded coordinate
equal to 0 is treated as missing by the falsy guard and always yields no
navigation. -/
theorem c7_gesture_threshold (n : Nat) (s : EngineState) (a b : Int)
    (hs : s.touchStart = some a) (he : s.touchEnd = some b)
    (ha : a ≠ 0) (hb : b ≠ 0) :
    (50 < a - b → touchEndOp n s = nextOp n s)
    ∧ (a - b < -50 → touchEndOp n s = prevOp n s)
    ∧ (-50 ≤ a - b → a - b ≤ 50 → touchEndOp n s = s) := by
  have hguard : ¬(a = 0 ∨ b = 0) := by
    intro hab
    rcases hab with h0 | h0
    · exact ha h0
    · exact hb h0
  refine ⟨?_, ?_, ?_⟩
  · intro hgt
    have hh : touchEndHandler n s = nextHandler n s := by
      unfold touchEndHandler
      rw [hs, he]
      simp only [if_neg hguard, if_pos hgt]
    rw [touchEndOp, hh, nextOp]
  · intro hlt
    have hh : touchEndHandler n s = prevHandler n s := by
      unfold touchEndHandler
      rw [hs, he]
      have hngt : ¬(50 < a - b) := by omega
      simp only [if_neg hguard, if_neg hngt, if_pos hlt]
    rw [touchEndOp, hh, prevOp]
  · intro h1 h2
    have hh : touchEndHandler n s = s := by
      unfold touchEndHandler
      rw [hs, he]
      have hngt : ¬(50 < a - b) := by omega
      have hnlt : ¬(a - b < -50) := by omega
      simp only [if_neg hguard, if_neg hngt, if_neg hnlt]
    rw [touchEndOp, hh, effectStep_eq_of_deps n s s rfl]

/-- C7 amended witness: a 51-pixel drag between nonzero coordinates
navigates next. -/
theorem c7_gesture_threshold_witness :
    ({ initState 3 true with touchStart := some 151, touchEnd := some 100 } : EngineState).touchStart
      = some 151
    ∧ ({ initState 3 true with touchStart := some 151, touchEnd := some 100 } : EngineState).touchEnd
      = some 100
    ∧ (151 : Int) ≠ 0 ∧ (100 : Int) ≠ 0 ∧ (50 : Int) < 151 - 100
    ∧ touchEndOp 3 { initState 3 true with touchStart := some 151, touchEnd := some 100 }
      = nextOp 3 { initState 3 true with touchStart := some 151, touchEnd := some 100 } :=
  ⟨by decide, by decide, by decide, by decide, by decide,
    (c7_gesture_threshold 3 { initState 3 true with touchStart := some 151, touchEnd := some 100 }
      151 100 rfl rfl (by decide) (by decide)).1 (by decide)⟩

/-- C8 counterexample: after a below-threshold touch-end the recorded
coordinates are NOT discarded — both remain in the state, contrary to the
claim that they are discarded on every touch-end. -/
theorem c8_counterexample :
    (touchEndOp 3 { initState 3 true with touchStart := some 30, touchEnd := some 20 }).touchStart
      = some 30
    ∧ (touchEndOp 3 { initState 3 true with touchStart := some 30, touchEnd := some 20 }).touchEnd
      = some 20 := by
  decide

/-- C8 (amended): touch-end never modifies the recorded coordinates;
instead, every touch-start overwrites them (`touchStart := x`,
`touchEnd := null`) regardless of prior state, so the residue left by a
below-threshold gesture cannot affect the outcome of a later gesture —
after touch-start plus a move the recognizer state is exactly
`(some x, some y)` whatever was there before. -/
theorem c8_touch_coordinates (n : Nat) (s : EngineState) (x y : Int) :
    (touchEndOp n s).touchStart = s.touchStart
    ∧ (touchEndOp n s).touchEnd = s.touchEnd
    ∧ (touchMoveOp n y (touchStartOp n x s)).touchStart = some x
    ∧ (touchMoveOp n y (touchStartOp n x s)).touchEnd = some y := by
  refine ⟨?_, ?_, ?_, ?_⟩
  · rw [touchEndOp, effectStep_touchStart, touchEndHandler_touchStart]
  · rw [touchEndOp, effectStep_touchEnd, touchEndHandler_touchEnd]
  · rw [touchMoveOp, effectStep_touchStart]
    show (touchStartOp n x s).touchStart = some x
    rw [touchStartOp, effectStep_touchStart]
    rfl
  · rw [touchMoveOp, effectStep_touchEnd]
    rfl

/-! ### Item-sequence replacement (claim C9) -/

/-- The at-most-one-timeout sanity condition relating the stored timer
handle to the scheduled timeout (it holds in every reachable state): if a
flip-revert timeout is scheduled, its handle is the one stored in the
`flipTimer` state variable. -/
def handlesOk (s : EngineState) : Bool :=
  match s.pendingFlip, s.flipTimer with
  | none, _ => true
  | some q, some hh => q.1 = hh
  | some _, none => false

/-- C9 counterexample: at index 2 of a three-item list, replacing the list
by a one-item list leaves `currentIndex = 2`, NOT the claimed clamp
`min(currentIndex, newLength - 1) = 0` — the index is now out of range for
the new list. -/
theorem c9_counterexample :
    (nextOp 3 (nextOp 3 (initState 3 true))).currentIndex = 2
    ∧ (replaceOp 3 1 (nextOp 3 (nextOp 3 (initState 3 true)))).currentIndex = 2
    ∧ currentItem 1 (replaceOp 3 1 (nextOp 3 (nextOp 3 (initState 3 true)))) = none := by
  decide

/-- C9 (amended): replacing the item sequence by one of a different length
leaves `currentIndex` unchanged (unclamped; the engine reports no current
item while it is out of range), cancels the scheduled flip-revert timeout
through the effect-cleanup, resets `progress` to 0, re-arms autoplay
exactly for the `PLAYING` state against the new length, and does NOT clear
`isFlipped`. -/
theorem c9_replace (nOld nNew : Nat) (s : EngineState) (hne : nOld ≠ nNew)
    (hok : handlesOk s = true) :
    (replaceOp nOld nNew s).currentIndex = s.currentIndex
    ∧ (replaceOp nOld nNew s).progress = 0
    ∧ (replaceOp nOld nNew s).pendingFlip = none
    ∧ (replaceOp nOld nNew s).isFlipped = s.isFlipped
    ∧ ((replaceOp nOld nNew s).autoplayArmed = true
        ↔ (s.isAutoPlaying = true ∧ 0 < nNew ∧ s.isFlipped = false)) := by
  have hrepl : replaceOp nOld nNew s = effectRun nNew s s := by
    rw [replaceOp, if_neg hne]
  refine ⟨?_, ?_, ?_, ?_, ?_⟩
  · rw [hrepl, effectRun_currentIndex]
  · rw [hrepl, effectRun_progress]
  · rw [hrepl, effectRun_pendingFlip]
    unfold handlesOk at hok
    cases hp : s.pendingFlip with
    | none => exact clearOpt_none s.flipTimer
    | some q =>
      rw [hp] at hok
      cases ht : s.flipTimer with
      | none =>
        rw [ht] at hok
        cases hok
      | some hh =>
        rw [ht] at hok
        have : q.1 = hh := by
          simpa using hok
        show (if q.1 = hh then none else some q) = (none : Option (Nat × Bool))
        rw [if_pos this]
  · rw [hrepl, effectRun_isFlipped]
  · rw [hrepl, effectRun_armed_iff]

/-- C9 amended witness: replace a three-item list (while flipped with a
scheduled revert) by a five-item list — index kept, timeout cancelled. -/
theorem c9_replace_witness :
    (3 : Nat) ≠ 5
    ∧ handlesOk (clickOp 3 (initState 3 true)) = true
    ∧ (replaceOp 3 5 (clickOp 3 (initState 3 true))).pendingFlip = none
    ∧ (replaceOp 3 5 (clickOp 3 (initState 3 true))).currentIndex
      = (clickOp 3 (initState 3 true)).currentIndex :=
  ⟨by decide, by decide,
    (c9_replace 3 5 (clickOp 3 (initState 3 true)) (by decide) (by decide)).2.2.1,
    (c9_replace 3 5 (clickOp 3 (initState 3 true)) (by decide) (by decide)).1⟩
